import Mathlib

/-!
Shallow embedding of `src/backend/app.py` (Space Debris Detector API).

The file is a FastAPI gateway around an opaque YOLO detector.  We embed the
three request handlers `predict`, `health_check` and `model_info` as pure
Lean functions of the global `model` handle (an `Option YOLOModel`) and of an
environment of opaque third-party capabilities (PIL decode, `result.plot`,
`cv2.imencode`, base64).  JSON payloads are embedded as an inductive `Json`
so that field names and field order of the serialized dictionaries are
observable.  Confidences and box coordinates (Python floats) are modelled as
rationals; Python ints as `Nat`.
-/

/-- Abstract byte buffer (file contents, encoded images). -/
abbrev Bytes := List Nat

/-- JSON values as produced by the handlers.  `nat` stands for a Python
non-negative `int`, `num` for a Python `float`. -/
inductive Json where
  | str : String → Json
  | num : Rat → Json
  | nat : Nat → Json
  | bool : Bool → Json
  | arr : List Json → Json
  | obj : List (String × Json) → Json

/-- Field names of a JSON object, in serialization order. -/
def Json.keys : Json → List String
  | .obj fields => fields.map Prod.fst
  | _ => []

/-- Look a field up in a serialized dictionary, first match wins. -/
def lookupField : List (String × Json) → String → Option Json
  | [], _ => none
  | (k, v) :: rest, key => if k = key then some v else lookupField rest key

/-- Look a field up in a JSON object. -/
def Json.lookup : Json → String → Option Json
  | .obj fields, k => lookupField fields k
  | _, _ => none

/-- An `xyxy` bounding box, as produced by `box.xyxy[0].tolist()`:
`[x1, y1, x2, y2]` in pixel coordinates. -/
structure Box where
  x1 : Rat
  y1 : Rat
  x2 : Rat
  y2 : Rat

/-- One raw detection tuple of the detector: class id (`box.cls[0]`),
confidence score (`box.conf[0]`) and bounding box (`box.xyxy[0]`). -/
structure RawDetection where
  cls : Nat
  conf : Rat
  box : Box

/-- Observable part of a PIL image: its color `mode` and pixel size. -/
structure PILImage where
  mode : String
  width : Nat
  height : Nat

/-- `image.convert("RGB")`: same pixel grid size, mode becomes `RGB`. -/
def PILImage.convertRGB (image : PILImage) : PILImage :=
  { image with mode := "RGB" }

/-- Lines 103-105 of app.py: convert to RGB if the mode is anything else. -/
def normalizeRGB (image : PILImage) : PILImage :=
  if image.mode ≠ "RGB" then image.convertRGB else image

/-- The loaded YOLO handle: its label set `model.names` (class id `i` maps to
`names[i]`) and its opaque `model.predict` capability, taking the image and
the `conf` and `iou` threshold knobs.  `none` models `result.boxes is None`.
-/
structure YOLOModel where
  names : List String
  detect : PILImage → Rat → Rat → Option (List RawDetection)

/-- Opaque third-party capabilities used by the `/predict` pipeline.
`decodeImage` is `PIL.Image.open` (`.error msg` = the exception it raises),
`annotate` is `result.plot()` followed by `cv2.cvtColor`, `imencode` is
`cv2.imencode(".jpg", ...)` (`none` = `success` false), `b64encode` is
`base64.b64encode(...).decode("utf-8")`. -/
structure PredictEnv where
  decodeImage : Bytes → Except String PILImage
  annotate : PILImage → Option (List RawDetection) → Bytes
  imencode : Bytes → Option Bytes
  b64encode : Bytes → String

/-- The observable part of a FastAPI `UploadFile`: its declared content type
(absent when the part carries no Content-Type header) and its bytes. -/
structure UploadFile where
  content_type : Option String
  contents : Bytes

/-- A raised `HTTPException`: status code and detail string. -/
structure HTTPException where
  status_code : Nat
  detail : String

/-- Outcome of a request handler: a JSONResponse with a status code and body,
a raised `HTTPException`, or an uncaught Python exception (which FastAPI
turns into a plain 500 response). -/
inductive Response where
  | json : Nat → Json → Response
  | error : HTTPException → Response
  | unhandled : String → Response

/-- HTTP status code of a handler outcome; FastAPI answers 500 for an
uncaught exception. -/
def Response.statusCode : Response → Nat
  | .json s _ => s
  | .error e => e.status_code
  | .unhandled _ => 500

/-- A 400-class (client error) status. -/
def is4xx (s : Nat) : Prop := 400 ≤ s ∧ s < 500

/-- A 500-class (server error) status. -/
def is5xx (s : Nat) : Prop := 500 ≤ s ∧ s < 600

/-- Lines 146-150 of app.py: the dictionary appended to `detections` for one
raw detection, given the looked-up class name. -/
def detRecord (name : String) (d : RawDetection) : Json :=
  Json.obj [("class", .str name),
            ("confidence", .num d.conf),
            ("box", .arr [.num d.box.x1, .num d.box.y1,
                          .num d.box.x2, .num d.box.y2])]

/-- Lines 140-150 of app.py: the loop over `result.boxes`, looking each class
id up in `model.names`.  A class id outside the label set raises a Python
`KeyError` (`none`), caught by the handler's catch-all. -/
def mapDetections (names : List String) : List RawDetection → Option (List Json)
  | [] => some []
  | d :: rest =>
    match names[d.cls]? with
    | none => none
    | some name =>
      match mapDetections names rest with
      | none => none
      | some rest2 => some (detRecord name d :: rest2)

/-- Lines 98-167 of app.py: the body of the `try` block of `/predict`, with
the catch-all `except` turning any raised exception into
`HTTPException(500, "Prediction error: ...")`. -/
def predictBody (m : YOLOModel) (env : PredictEnv) (contents : Bytes) : Response :=
  match env.decodeImage contents with
  | .error msg => .error ⟨500, "Prediction error: " ++ msg⟩
  | .ok image0 =>
    let image := normalizeRGB image0
    let result := m.detect image (1/4) (9/20)
    let annotated := env.annotate image result
    match env.imencode annotated with
    | none => .error ⟨500, "Prediction error: Failed to encode image"⟩
    | some buffer =>
      let img_base64 := env.b64encode buffer
      let raw := match result with
        | none => []
        | some l => l
      match mapDetections m.names raw with
      | none => .error ⟨500, "Prediction error: KeyError"⟩
      | some detections =>
        .json 200 (Json.obj [
          ("success", .bool true),
          ("annotated_image", .str img_base64),
          ("detections", .arr detections),
          ("num_detections", .nat detections.length),
          ("image_size", .arr [.nat image.width, .nat image.height])])

/-- Python's `s.startswith(pre)`, over the character sequences. -/
def strStartsWith (s pre : String) : Bool :=
  pre.data.isPrefixOf s.data

/-- Lines 76-167 of app.py: the `/predict` handler.  The model-loaded check
comes first (500), then the content-type check (400); a missing content type
makes `file.content_type.startswith` raise an `AttributeError`, which is not
an `HTTPException` and escapes the handler uncaught. -/
def predict (mo : Option YOLOModel) (env : PredictEnv) (file : UploadFile) : Response :=
  match mo with
  | none => .error ⟨500, "Model not loaded"⟩
  | some m =>
    match file.content_type with
    | none => .unhandled "AttributeError: NoneType object has no attribute startswith"
    | some ct =>
      if strStartsWith ct "image/" then
        predictBody m env file.contents
      else
        .error ⟨400, "File must be an image"⟩

/-- Lines 67-74 of app.py: the `/health` handler. -/
def health_check (mo : Option YOLOModel) : Json :=
  Json.obj [
    ("status", .str "healthy"),
    ("model_loaded", .bool mo.isSome),
    ("classes", .arr ((match mo with
                       | some m => m.names
                       | none => []).map Json.str))]

/-- `model.names` as the JSON dictionary `{id: name}`. -/
def namesDict (names : List String) : Json :=
  Json.obj (names.enum.map fun p => (toString p.1, Json.str p.2))

/-- Lines 169-179 of app.py: the `/model-info` handler. -/
def model_info (mo : Option YOLOModel) : Response :=
  match mo with
  | none => .error ⟨500, "Model not loaded"⟩
  | some m =>
    .json 200 (Json.obj [
      ("model_type", .str "YOLOv8"),
      ("classes", namesDict m.names),
      ("num_classes", .nat m.names.length)])

/-- Shape check for one serialized detection record: exactly the fields
`class` (a string), `confidence` (a float) and `box` (a 4-element list), in
that order. -/
def recordShapeOk (r : Json) : Bool :=
  match r with
  | .obj [("class", .str _), ("confidence", .num _),
          ("box", .arr [.num _, .num _, .num _, .num _])] => true
  | _ => false

/-! Concrete fixtures used by witnesses and counterexamples. -/

/-- A concrete 640x480 RGB decoded image. -/
def imgA : PILImage := ⟨"RGB", 640, 480⟩

/-- A concrete raw detection: class id 0, confidence 0.9, box [1,2,3,4]. -/
def detA : RawDetection := ⟨0, 9/10, ⟨1, 2, 3, 4⟩⟩

/-- A concrete loaded model whose detector reports exactly `detA`. -/
def mA : YOLOModel := ⟨["debris"], fun _ _ _ => some [detA]⟩

/-- A model with the same label set as `mA` but a different detect
capability (it reports nothing). -/
def mB : YOLOModel := ⟨["debris"], fun _ _ _ => some []⟩

/-- An environment where every third-party capability succeeds. -/
def envA : PredictEnv :=
  ⟨fun _ => .ok imgA, fun _ _ => [7], fun _ => some [8], fun _ => "b64"⟩

/-- An environment where PIL cannot decode the uploaded bytes. -/
def envBad : PredictEnv :=
  { envA with decodeImage := fun _ => .error "cannot identify image file" }

/-- A well-formed image upload. -/
def fileA : UploadFile := ⟨some "image/jpeg", [0, 1]⟩

/-- An upload with a non-image content type. -/
def fileTxt : UploadFile := ⟨some "text/plain", [0, 1]⟩

/-- An upload carrying no Content-Type header at all. -/
def fileNoCT : UploadFile := ⟨none, [0, 1]⟩

/-- The serialized record `predict` produces for `detA` under `mA`. -/
def recA : Json := detRecord "debris" detA

/-- The successful response body for `fileA` under `mA` and `envA`. -/
def bodyA : Json :=
  Json.obj [
    ("success", .bool true),
    ("annotated_image", .str "b64"),
    ("detections", .arr [recA]),
    ("num_detections", .nat 1),
    ("image_size", .arr [.nat 640, .nat 480])]

/-- Sanity: the fixture run succeeds with the expected body. -/
lemma predict_fixture_run : predict (some mA) envA fileA = .json 200 bodyA := by
  rfl

/-! Helper lemmas. -/

/-- Every record produced by the detection loop passes the shape check. -/
lemma mapDetections_shape (names : List String) (raw : List RawDetection)
    (dets : List Json) (h : mapDetections names raw = some dets) :
    dets.all recordShapeOk = true := by
  induction raw generalizing dets with
  | nil =>
    simp [mapDetections] at h
    subst h
    rfl
  | cons d rest ih =>
    rw [mapDetections] at h
    cases hn : names[d.cls]? with
    | none => rw [hn] at h; simp at h
    | some name =>
      rw [hn] at h
      cases hr : mapDetections names rest with
      | none => rw [hr] at h; simp at h
      | some rest2 =>
        rw [hr] at h
        simp only [Option.some.injEq] at h
        subst h
        simp [List.all, ih rest2 hr, recordShapeOk, detRecord]

/-- When every class id is inside the label set, the detection loop succeeds
and maps the raw tuples in order, each to its `detRecord`. -/
lemma mapDetections_eq_map (names : List String) (raw : List RawDetection)
    (h : ∀ d ∈ raw, d.cls < names.length) :
    mapDetections names raw
      = some (raw.map fun d => detRecord (names.getD d.cls "") d) := by
  induction raw with
  | nil => rfl
  | cons d rest ih =>
    have hd : d.cls < names.length := h d (List.mem_cons_self d rest)
    rw [mapDetections, List.getElem?_eq_getElem hd,
      ih fun x hx => h x (List.mem_cons_of_mem d hx)]
    simp [List.getD_eq_getElem?_getD, List.getElem?_eq_getElem hd]

/-- Inversion: a `JSONResponse` out of `predict` has status 200 and the body
built at lines 157-163, with `detections` produced by the loop. -/
lemma predict_json_form (mo : Option YOLOModel) (env : PredictEnv)
    (file : UploadFile) (s : Nat) (body : Json)
    (h : predict mo env file = .json s body) :
    s = 200 ∧ ∃ (m : YOLOModel) (b64 : String) (w ht : Nat)
      (dets : List Json) (raw : List RawDetection),
      mo = some m ∧ mapDetections m.names raw = some dets ∧
      body = Json.obj [
        ("success", .bool true),
        ("annotated_image", .str b64),
        ("detections", .arr dets),
        ("num_detections", .nat dets.length),
        ("image_size", .arr [.nat w, .nat ht])] := by
  cases mo with
  | none => exact absurd h (by simp [predict])
  | some m =>
    obtain ⟨octype, contents⟩ := file
    cases octype with
    | none => exact absurd h (by simp [predict])
    | some ct =>
      by_cases him : strStartsWith ct "image/"
      · rw [predict] at h
        simp only [him, if_true] at h
        rw [predictBody] at h
        cases hdec : env.decodeImage contents with
        | error msg => rw [hdec] at h; simp at h
        | ok image0 =>
          rw [hdec] at h
          simp only [] at h
          cases henc : env.imencode (env.annotate (normalizeRGB image0)
              (m.detect (normalizeRGB image0) (1/4) (9/20))) with
          | none => rw [henc] at h; simp at h
          | some buffer =>
            rw [henc] at h
            cases hmap : mapDetections m.names
                (match m.detect (normalizeRGB image0) (1/4) (9/20) with
                 | none => []
                 | some l => l) with
            | none => rw [hmap] at h; simp at h
            | some detections =>
              rw [hmap] at h
              simp only [Response.json.injEq] at h
              obtain ⟨hs, hbody⟩ := h
              exact ⟨hs.symm, m, env.b64encode buffer,
                (normalizeRGB image0).width, (normalizeRGB image0).height,
                detections, _, rfl, hmap, hbody.symm⟩
      · rw [predict] at h
        simp only [him, if_false] at h
        exact absurd h (by simp)

/-! Claim theorems. -/

/-- C1 (amended): an image-typed upload whose byte buffer PIL cannot decode
makes `/predict` fail inside the catch-all with
`HTTPException(500, "Prediction error: ...")` — the InternalError class
(500-class), not the 400-class InvalidInput the claim assigns to
undecodable input. -/
theorem predict_undecodable_internal_500 (m : YOLOModel) (env : PredictEnv)
    (ct : String) (contents : Bytes) (msg : String)
    (him : strStartsWith ct "image/" = true)
    (hdec : env.decodeImage contents = .error msg) :
    predict (some m) env ⟨some ct, contents⟩
      = .error ⟨500, "Prediction error: " ++ msg⟩ ∧
    is5xx (predict (some m) env ⟨some ct, contents⟩).statusCode ∧
    ¬ is4xx (predict (some m) env ⟨some ct, contents⟩).statusCode := by
  have key : predict (some m) env ⟨some ct, contents⟩
      = .error ⟨500, "Prediction error: " ++ msg⟩ := by
    rw [predict]
    simp only [him, if_true]
    rw [predictBody, hdec]
  refine ⟨key, ?_, ?_⟩ <;> rw [key]
  · exact (by norm_num : (500 : Nat) ≤ 500 ∧ (500 : Nat) < 600)
  · intro hc
    have h2 : (500 : Nat) < 500 := hc.2
    omega

/-- Witness for the amended C1 at a concrete undecodable upload. -/
theorem predict_undecodable_internal_500_witness :
    predict (some mA) envBad ⟨some "image/png", [0, 1]⟩
      = .error ⟨500, "Prediction error: " ++ "cannot identify image file"⟩ ∧
    is5xx (predict (some mA) envBad
      ⟨some "image/png", [0, 1]⟩).statusCode ∧
    ¬ is4xx (predict (some mA) envBad
      ⟨some "image/png", [0, 1]⟩).statusCode :=
  predict_undecodable_internal_500 mA envBad "image/png" [0, 1]
    "cannot identify image file" (by rfl) (by rfl)

/-- C1 counterexample: at a concrete image/jpeg upload with undecodable
bytes, `/predict` answers with status 500, so the claimed 400-class
InvalidInput failure is false on the code. -/
theorem predict_undecodable_not_4xx_cex :
    predict (some mA) envBad fileA
      = .error ⟨500, "Prediction error: " ++ "cannot identify image file"⟩ ∧
    ¬ is4xx (predict (some mA) envBad fileA).statusCode := by
  refine ⟨rfl, fun hc => ?_⟩
  have h2 : (500 : Nat) < 500 := hc.2
  omega

/-- C2 (amended): every detection record in a successful `/predict` response
is an object with exactly the fields `class` (a string), `confidence` (a
float) and `box` (a 4-element list) — the first field is named `class`, not
`class_name`. -/
theorem predict_record_fields (mo : Option YOLOModel) (env : PredictEnv)
    (file : UploadFile) (s : Nat) (body : Json) (dets : List Json)
    (h : predict mo env file = .json s body)
    (hdets : Json.lookup body "detections" = some (.arr dets)) :
    dets.all recordShapeOk = true := by
  obtain ⟨-, m, b64, w, ht, dets0, raw, -, hmap, hbody⟩ :=
    predict_json_form mo env file s body h
  subst hbody
  have hd : some (Json.arr dets0) = some (Json.arr dets) := hdets
  obtain rfl : dets0 = dets := Json.arr.inj (Option.some.inj hd)
  exact mapDetections_shape m.names raw dets0 hmap

/-- Witness for the amended C2 at a concrete successful response. -/
theorem predict_record_fields_witness :
    List.all [recA] recordShapeOk = true :=
  predict_record_fields (some mA) envA fileA 200 bodyA [recA] rfl rfl

/-- C2 counterexample: in a concrete successful response the detection
record carries the fields `class`, `confidence`, `box`; there is no
`class_name` field, so the claimed field set is false on the code. -/
theorem predict_record_field_names_cex :
    predict (some mA) envA fileA = .json 200 bodyA ∧
    Json.lookup bodyA "detections" = some (.arr [recA]) ∧
    Json.keys recA = ["class", "confidence", "box"] ∧
    Json.keys recA ≠ ["class_name", "confidence", "box"] ∧
    Json.lookup recA "class_name" = none :=
  ⟨rfl, rfl, rfl, by decide, rfl⟩

/-- C3: while the detector handle is not loaded (`model is None`),
`/predict` raises `HTTPException(500, "Model not loaded")`, a 500-class
error; the outcome is the same for every capability environment, so none of
the decode/infer/encode steps runs, and the error response carries no
detections and no annotated image. -/
theorem predict_unloaded_500 (env : PredictEnv) (file : UploadFile) :
    predict none env file = .error ⟨500, "Model not loaded"⟩ ∧
    is5xx (predict none env file).statusCode :=
  ⟨rfl, (by norm_num : (500 : Nat) ≤ 500 ∧ (500 : Nat) < 600)⟩

/-- C4: with the model loaded, an upload whose content type does not start
with `image/` makes `/predict` raise
`HTTPException(400, "File must be an image")`, a 400-class error; the
outcome is the same for every model and environment, so the detector's
predict capability is never invoked. -/
theorem predict_non_image_400 (m : YOLOModel) (env : PredictEnv)
    (ct : String) (contents : Bytes)
    (him : strStartsWith ct "image/" = false) :
    predict (some m) env ⟨some ct, contents⟩
      = .error ⟨400, "File must be an image"⟩ ∧
    is4xx (predict (some m) env ⟨some ct, contents⟩).statusCode := by
  have key : predict (some m) env ⟨some ct, contents⟩
      = .error ⟨400, "File must be an image"⟩ := by
    rw [predict]
    simp only [him]
    rfl
  refine ⟨key, ?_⟩
  rw [key]
  exact (by norm_num : (400 : Nat) ≤ 400 ∧ (400 : Nat) < 500)

/-- Witness for C4 at a concrete text/plain upload. -/
theorem predict_non_image_400_witness :
    predict (some mA) envA fileTxt
      = .error ⟨400, "File must be an image"⟩ ∧
    is4xx (predict (some mA) envA fileTxt).statusCode :=
  predict_non_image_400 mA envA "text/plain" [0, 1] (by rfl)

/-- C5: every successful `/predict` response satisfies
`num_detections == length(detections)`. -/
theorem predict_num_detections_eq_length (mo : Option YOLOModel)
    (env : PredictEnv) (file : UploadFile) (s : Nat) (body : Json)
    (h : predict mo env file = .json s body) :
    ∃ dets : List Json,
      Json.lookup body "detections" = some (.arr dets) ∧
      Json.lookup body "num_detections" = some (.nat dets.length) := by
  obtain ⟨-, m, b64, w, ht, dets, raw, -, -, hbody⟩ :=
    predict_json_form mo env file s body h
  subst hbody
  exact ⟨dets, rfl, rfl⟩

/-- Witness for C5 at a concrete successful response. -/
theorem predict_num_detections_eq_length_witness :
    ∃ dets : List Json,
      Json.lookup bodyA "detections" = some (.arr dets) ∧
      Json.lookup bodyA "num_detections" = some (.nat dets.length) :=
  predict_num_detections_eq_length (some mA) envA fileA 200 bodyA rfl

/-- C6: in a successful response the `detections` list is exactly the
in-order map of the detector's raw tuples to their records: the class name
is the label-set entry at the tuple's class id, confidence and box are
passed through unmodified, and no re-sorting happens. -/
theorem predict_detections_order (m : YOLOModel) (env : PredictEnv)
    (ct : String) (contents : Bytes) (image0 : PILImage)
    (raw : List RawDetection) (buffer : Bytes)
    (him : strStartsWith ct "image/" = true)
    (hdec : env.decodeImage contents = .ok image0)
    (hdet : m.detect (normalizeRGB image0) (1/4) (9/20) = some raw)
    (hcls : ∀ d ∈ raw, d.cls < m.names.length)
    (henc : env.imencode (env.annotate (normalizeRGB image0) (some raw))
      = some buffer) :
    ∃ body : Json,
      predict (some m) env ⟨some ct, contents⟩ = .json 200 body ∧
      Json.lookup body "detections"
        = some (.arr (raw.map fun d => detRecord (m.names.getD d.cls "") d)) := by
  have hmap := mapDetections_eq_map m.names raw hcls
  have key : predict (some m) env ⟨some ct, contents⟩
      = .json 200 (Json.obj [
          ("success", .bool true),
          ("annotated_image", .str (env.b64encode buffer)),
          ("detections",
            .arr (raw.map fun d => detRecord (m.names.getD d.cls "") d)),
          ("num_detections",
            .nat (raw.map fun d => detRecord (m.names.getD d.cls "") d).length),
          ("image_size", .arr [.nat (normalizeRGB image0).width,
                               .nat (normalizeRGB image0).height])]) := by
    rw [predict]
    simp only [him, if_true]
    rw [predictBody, hdec]
    simp only [hdet, henc, hmap]
  exact ⟨_, key, rfl⟩

/-- Witness for C6 at a concrete run with one detection. -/
theorem predict_detections_order_witness :
    ∃ body : Json,
      predict (some mA) envA ⟨some "image/jpeg", [0, 1]⟩ = .json 200 body ∧
      Json.lookup body "detections"
        = some (.arr ([detA].map fun d => detRecord (mA.names.getD d.cls "") d)) :=
  predict_detections_order mA envA "image/jpeg" [0, 1] imgA [detA] [8]
    (by rfl) (by rfl) (by rfl) (by decide) (by rfl)

/-- C7: `/health` and `/model-info` are pure functions of the model handle
that read only its label set: two handles with the same `names` but
different detect capabilities produce identical outputs, so the detector's
predict capability is never invoked; as pure functions they change no
process state. -/
theorem health_model_info_read_only (m m2 : YOLOModel)
    (h : m.names = m2.names) :
    health_check (some m) = health_check (some m2) ∧
    model_info (some m) = model_info (some m2) := by
  obtain ⟨n1, d1⟩ := m
  obtain ⟨n2, d2⟩ := m2
  have h2 : n1 = n2 := h
  subst h2
  exact ⟨rfl, rfl⟩

/-- Witness for C7: `mA` and `mB` share the label set but have different
detect capabilities. -/
theorem health_model_info_read_only_witness :
    health_check (some mA) = health_check (some mB) ∧
    model_info (some mA) = model_info (some mB) :=
  health_model_info_read_only mA mB (by rfl)

/-- C8: an upload carrying no content type makes the handler evaluate
`None.startswith("image/")`, an uncaught `AttributeError` that the framework
turns into a plain 500 — not the 400 "File must be an image"
`HTTPException`; the outcome is the same for every model and environment, so
the detector is not invoked. -/
theorem predict_no_content_type_unhandled (m : YOLOModel) (env : PredictEnv)
    (contents : Bytes) :
    predict (some m) env ⟨none, contents⟩
      = .unhandled
          "AttributeError: NoneType object has no attribute startswith" ∧
    (predict (some m) env ⟨none, contents⟩).statusCode = 500 ∧
    predict (some m) env ⟨none, contents⟩
      ≠ .error ⟨400, "File must be an image"⟩ :=
  ⟨rfl, rfl, fun hc => Response.noConfusion hc⟩

/-- C9: the model-loaded check precedes the content-type check: with the
model unloaded, even an upload with a non-image content type gets the
500 "Model not loaded" error, never the 400 "File must be an image" one. -/
theorem predict_unloaded_precedes_content_type (env : PredictEnv)
    (ct : String) (contents : Bytes)
    (_him : strStartsWith ct "image/" = false) :
    predict none env ⟨some ct, contents⟩
      = .error ⟨500, "Model not loaded"⟩ ∧
    predict none env ⟨some ct, contents⟩
      ≠ .error ⟨400, "File must be an image"⟩ := by
  refine ⟨rfl, fun hc => ?_⟩
  have h2 := congrArg Response.statusCode hc
  have h3 : (500 : Nat) = 400 := h2
  omega

/-- Witness for C9 at a concrete text/plain upload with the model unloaded. -/
theorem predict_unloaded_precedes_content_type_witness :
    predict none envA fileTxt = .error ⟨500, "Model not loaded"⟩ ∧
    predict none envA fileTxt ≠ .error ⟨400, "File must be an image"⟩ :=
  predict_unloaded_precedes_content_type envA "text/plain" [0, 1] (by rfl)

/-- C10: `/health` always reports status "healthy", also when the model
failed to load; `model_loaded` mirrors the load state, and `classes` is the
empty list when the model is unloaded. -/
theorem health_check_always_healthy (mo : Option YOLOModel) :
    Json.lookup (health_check mo) "status" = some (.str "healthy") ∧
    Json.lookup (health_check mo) "model_loaded" = some (.bool mo.isSome) ∧
    Json.lookup (health_check none) "classes" = some (.arr []) :=
  ⟨rfl, rfl, rfl⟩
